import Mathlib

/-!
Verification of the Merge-PDF application core against its specification.

The Python sources are shallowly embedded: pure logic is translated to
executable Lean definitions; interactions with the external PDF/imaging
libraries and the filesystem are made explicit as environment records
(oracles) passed to the embedded functions.  Machine floats are modelled
as rationals, byte strings as a pair of an identity tag and a length,
and Python exceptions as Except / Option values.
-/

/- ## Theme manager (src/ui/themes.py) -/

inductive ThemeMode
  | light
  | dark
deriving DecidableEq, Repr

/-- Palette of the light theme, from ThemeManager of themes.py. -/
def lightThemeColors : List (String × String) :=
  [("bg_primary", "#FAFBFC"),
   ("bg_secondary", "#F4F6F8"),
   ("bg_tertiary", "#EBEDEF"),
   ("text_primary", "#1C1E21"),
   ("text_secondary", "#606770"),
   ("accent_blue", "#E8F4F8"),
   ("accent_blue_hover", "#D1E7ED"),
   ("accent_red", "#FDF2F2"),
   ("accent_red_hover", "#FAE1E1"),
   ("accent_purple", "#F7F3FF"),
   ("accent_purple_hover", "#EDE7FF"),
   ("border", "#DDE1E5"),
   ("selected", "#E8F4F8"),
   ("progress_color", "#1877F2"),
   ("error_color", "#E74C3C"),
   ("success_color", "#2ECC71"),
   ("warning_color", "#F39C12")]

/-- Palette of the dark theme, from ThemeManager of themes.py. -/
def darkThemeColors : List (String × String) :=
  [("bg_primary", "#0D1117"),
   ("bg_secondary", "#161B22"),
   ("bg_tertiary", "#21262D"),
   ("text_primary", "#F0F6FC"),
   ("text_secondary", "#8B949E"),
   ("accent_blue", "#0D2138"),
   ("accent_blue_hover", "#1A2B42"),
   ("accent_red", "#2D1417"),
   ("accent_red_hover", "#3C1E23"),
   ("accent_purple", "#2D1B44"),
   ("accent_purple_hover", "#3E2759"),
   ("border", "#30363D"),
   ("selected", "#1F6FEB"),
   ("progress_color", "#58A6FF"),
   ("error_color", "#F85149"),
   ("success_color", "#56D364"),
   ("warning_color", "#E3B341")]

/-- The themes dictionary held by the manager. -/
def themeColors : ThemeMode → List (String × String)
  | ThemeMode.light => lightThemeColors
  | ThemeMode.dark => darkThemeColors

/-- ThemeManager.get_colors: returns (a copy of) the palette of the current mode. -/
def get_colors (current_mode : ThemeMode) : List (String × String) :=
  themeColors current_mode

/-- ThemeManager.toggle_theme: flips the mode and returns the new mode. -/
def toggle_theme : ThemeMode → ThemeMode
  | ThemeMode.light => ThemeMode.dark
  | ThemeMode.dark => ThemeMode.light

/- ## PDF domain model (src/core/pdf_handler.py) -/

/-- PDFInfo value object: path, base name, byte size and page count,
read once at construction. -/
structure PDFInfo where
  path : String
  name : String
  size : Nat
  pages : Nat
deriving DecidableEq, Repr

/- ## File list manager (src/core/file_manager.py) -/

inductive SortOrder
  | asc
  | desc
deriving DecidableEq, Repr

/-- Callback events fired by the manager (on_files_changed /
on_selection_changed with the new index). -/
inductive Notification
  | filesChanged
  | selectionChanged (index : Option Nat)
deriving DecidableEq, Repr

/-- The mutable state of PDFFileManager. -/
structure ManagerState where
  pdf_files : List PDFInfo
  selected_index : Option Nat
  sort_order : SortOrder
deriving DecidableEq, Repr

/-- PDFFileManager.__init__ state. -/
def initialManagerState : ManagerState :=
  { pdf_files := [], selected_index := none, sort_order := SortOrder.asc }

/-- PDFFileManager._is_valid_index. -/
def is_valid_index (s : ManagerState) (index : Nat) : Bool :=
  decide (index < s.pdf_files.length)

/-- PDFFileManager._set_selection: update and notify only when the value changed. -/
def set_selection_internal (s : ManagerState) (index : Option Nat) :
    ManagerState × List Notification :=
  if s.selected_index ≠ index then
    ({ s with selected_index := index }, [Notification.selectionChanged index])
  else (s, [])

/-- PDFFileManager.set_selection: silently rejects out-of-range indices. -/
def set_selection (s : ManagerState) (index : Option Nat) :
    ManagerState × List Notification :=
  match index with
  | some i => if is_valid_index s i then set_selection_internal s (some i) else (s, [])
  | none => set_selection_internal s none

/-- PDFFileManager._file_already_exists: exact path match. -/
def file_already_exists (s : ManagerState) (file_path : String) : Bool :=
  s.pdf_files.any (fun pdf => pdf.path == file_path)

/-- PDFFileManager.add_file.  The call to PDFValidator.get_pdf_info is an
oracle argument because it reads the filesystem. -/
def add_file (get_pdf_info : String → Option PDFInfo) (s : ManagerState)
    (file_path : String) : ManagerState × Bool :=
  if file_already_exists s file_path then (s, false)
  else
    match get_pdf_info file_path with
    | some info => ({ s with pdf_files := s.pdf_files ++ [info] }, true)
    | none => (s, false)

/-- PDFFileManager._process_file_additions. -/
def process_file_additions (get_pdf_info : String → Option PDFInfo)
    (s : ManagerState) (file_paths : List String) : ManagerState × Nat :=
  file_paths.foldl
    (fun acc file_path =>
      let r := add_file get_pdf_info acc.1 file_path
      (r.1, acc.2 + if r.2 then 1 else 0))
    (s, 0)

/-- PDFFileManager.add_files: one files-changed event for the whole batch,
selection moved to 0 when the list was empty before the call. -/
def add_files (get_pdf_info : String → Option PDFInfo) (s : ManagerState)
    (file_paths : List String) : ManagerState × Nat × List Notification :=
  let was_empty := s.pdf_files.isEmpty
  let r := process_file_additions get_pdf_info s file_paths
  if 0 < r.2 then
    if was_empty then
      let r2 := set_selection r.1 (some 0)
      (r2.1, r.2, Notification.filesChanged :: r2.2)
    else (r.1, r.2, [Notification.filesChanged])
  else (r.1, r.2, [])

/-- PDFFileManager.remove_file. -/
def remove_file (s : ManagerState) (index : Nat) :
    ManagerState × List Notification × Option PDFInfo :=
  if h : index < s.pdf_files.length then
    let removed := s.pdf_files.get ⟨index, h⟩
    let files := s.pdf_files.eraseIdx index
    let sel :
        Option Nat × List Notification :=
      if s.selected_index = some index then
        (none, [Notification.selectionChanged none])
      else
        match s.selected_index with
        | some j =>
          if index < j then (some (j - 1), [Notification.selectionChanged (some (j - 1))])
          else (some j, [])
        | none => (none, [])
    ({ s with pdf_files := files, selected_index := sel.1 },
     sel.2 ++ [Notification.filesChanged], some removed)
  else (s, [], none)

/-- PDFFileManager.move_file_up. -/
def move_file_up (s : ManagerState) (index : Nat) :
    ManagerState × List Notification × Bool :=
  if h : index < s.pdf_files.length ∧ index ≠ 0 then
    let cur := s.pdf_files.get ⟨index, h.1⟩
    let prev := s.pdf_files.get ⟨index - 1, by omega⟩
    let files := (s.pdf_files.set index prev).set (index - 1) cur
    let sel :
        Option Nat × List Notification :=
      if s.selected_index = some index then
        (some (index - 1), [Notification.selectionChanged (some (index - 1))])
      else if s.selected_index = some (index - 1) then
        (some index, [Notification.selectionChanged (some index)])
      else (s.selected_index, [])
    ({ s with pdf_files := files, selected_index := sel.1 },
     sel.2 ++ [Notification.filesChanged], true)
  else (s, [], false)

/-- PDFFileManager.move_file_down. -/
def move_file_down (s : ManagerState) (index : Nat) :
    ManagerState × List Notification × Bool :=
  if h : index + 1 < s.pdf_files.length then
    let cur := s.pdf_files.get ⟨index, by omega⟩
    let next := s.pdf_files.get ⟨index + 1, h⟩
    let files := (s.pdf_files.set index next).set (index + 1) cur
    let sel :
        Option Nat × List Notification :=
      if s.selected_index = some index then
        (some (index + 1), [Notification.selectionChanged (some (index + 1))])
      else if s.selected_index = some (index + 1) then
        (some index, [Notification.selectionChanged (some index)])
      else (s.selected_index, [])
    ({ s with pdf_files := files, selected_index := sel.1 },
     sel.2 ++ [Notification.filesChanged], true)
  else (s, [], false)

/-- Insertion clamping to the end, the semantics of Python list.insert. -/
def insertAt (n : Nat) (x : α) : List α → List α
  | [] => [x]
  | y :: ys =>
    match n with
    | 0 => x :: y :: ys
    | Nat.succ m => y :: insertAt m x ys

/-- PDFFileManager.move_file_to_position. -/
def move_file_to_position (s : ManagerState) (fromIdx toIdx : Nat) :
    ManagerState × List Notification × Bool :=
  if h : fromIdx < s.pdf_files.length ∧ toIdx < s.pdf_files.length then
    if fromIdx = toIdx then (s, [], true)
    else
      let moved := s.pdf_files.get ⟨fromIdx, h.1⟩
      let files := insertAt toIdx moved (s.pdf_files.eraseIdx fromIdx)
      let sel :
          Option Nat × List Notification :=
        if s.selected_index = some fromIdx then
          (some toIdx, [Notification.selectionChanged (some toIdx)])
        else (s.selected_index, [])
      ({ s with pdf_files := files, selected_index := sel.1 },
       sel.2 ++ [Notification.filesChanged], true)
  else (s, [], false)

/-- PDFFileManager.clear_all. -/
def clear_all (s : ManagerState) : ManagerState × List Notification :=
  let s1 := { s with pdf_files := ([] : List PDFInfo) }
  let r := set_selection_internal s1 none
  (r.1, r.2 ++ [Notification.filesChanged])

/-- PDFFileManager._get_opposite_sort_order. -/
def opposite_sort_order : SortOrder → SortOrder
  | SortOrder.asc => SortOrder.desc
  | SortOrder.desc => SortOrder.asc

/-- Lower-cased character key of a display name (Python str.lower on the name). -/
def lowerKey (s : String) : List Char :=
  s.data.map Char.toLower

/-- Lexicographic strict comparison on character lists by code point, the
order Python uses to compare the lower-cased name keys. -/
def strKeyLt : List Char → List Char → Bool
  | [], [] => false
  | [], _ :: _ => true
  | _ :: _, [] => false
  | x :: xs, y :: ys =>
    if x.toNat < y.toNat then true
    else if y.toNat < x.toNat then false
    else strKeyLt xs ys

/-- Strict comparison of two files by lower-cased name. -/
def fileNameLt (a b : PDFInfo) : Bool :=
  strKeyLt (lowerKey a.name) (lowerKey b.name)

/-- Stable insertion into a sorted list: a new element goes after every
element it does not strictly precede. -/
def insertSortedBy (lt : α → α → Bool) (x : α) : List α → List α
  | [] => [x]
  | y :: ys => if lt x y then x :: y :: ys else y :: insertSortedBy lt x ys

/-- Stable sort (unique as a function, so it models Python's stable
list.sort with a key). -/
def stableSortBy (lt : α → α → Bool) (l : List α) : List α :=
  l.foldl (fun acc x => insertSortedBy lt x acc) []

/-- PDFFileManager._apply_current_sort_order: stable sort by lower-cased
name, reversed comparisons for descending order. -/
def apply_sort_order (order : SortOrder) (files : List PDFInfo) : List PDFInfo :=
  match order with
  | SortOrder.asc => stableSortBy fileNameLt files
  | SortOrder.desc => stableSortBy (fun a b => fileNameLt b a) files

/-- PDFFileManager._find_file_index_by_path: first index whose path matches. -/
def find_file_index_by_path (files : List PDFInfo) (file_path : String) : Option Nat :=
  match files with
  | [] => none
  | f :: fs =>
    if f.path == file_path then some 0
    else (find_file_index_by_path fs file_path).map (· + 1)

/-- PDFFileManager._adjust_selection_after_sort.  Note: the source runs this
after the in-place sort, so the path is read from the already sorted list at
the stale selected index. -/
def adjust_selection_after_sort (s : ManagerState) : ManagerState × List Notification :=
  match s.selected_index with
  | none => (s, [])
  | some i =>
    if h : i < s.pdf_files.length then
      let selected_path := (s.pdf_files.get ⟨i, h⟩).path
      match find_file_index_by_path s.pdf_files selected_path with
      | some new_index =>
        ({ s with selected_index := some new_index },
         [Notification.selectionChanged (some new_index)])
      | none => (s, [])
    else (s, [])

/-- PDFFileManager.toggle_sort_order: flip the order, re-sort, adjust the
selection, then always notify files-changed. -/
def toggle_sort_order (s : ManagerState) : ManagerState × List Notification :=
  let order := opposite_sort_order s.sort_order
  let s1 := { s with sort_order := order, pdf_files := apply_sort_order order s.pdf_files }
  let r := adjust_selection_after_sort s1
  (r.1, r.2 ++ [Notification.filesChanged])

/-- The public mutating operations of the file list manager. -/
inductive ManagerOp
  | addFiles (paths : List String)
  | removeFile (index : Nat)
  | moveFileUp (index : Nat)
  | moveFileDown (index : Nat)
  | moveFileToPosition (fromIdx toIdx : Nat)
  | clearAll
  | toggleSortOrder
  | setSelection (index : Option Nat)
deriving DecidableEq, Repr

/-- State reached after one operation. -/
def applyOp (get_pdf_info : String → Option PDFInfo) (s : ManagerState) :
    ManagerOp → ManagerState
  | ManagerOp.addFiles paths => (add_files get_pdf_info s paths).1
  | ManagerOp.removeFile i => (remove_file s i).1
  | ManagerOp.moveFileUp i => (move_file_up s i).1
  | ManagerOp.moveFileDown i => (move_file_down s i).1
  | ManagerOp.moveFileToPosition a b => (move_file_to_position s a b).1
  | ManagerOp.clearAll => (clear_all s).1
  | ManagerOp.toggleSortOrder => (toggle_sort_order s).1
  | ManagerOp.setSelection idx => (set_selection s idx).1

/-- State reached after a sequence of operations from the initial state. -/
def applyOps (get_pdf_info : String → Option PDFInfo) (s : ManagerState)
    (ops : List ManagerOp) : ManagerState :=
  ops.foldl (applyOp get_pdf_info) s

/-- The selection, whenever present, indexes into the file sequence. -/
def SelectionInBounds (s : ManagerState) : Prop :=
  ∀ i, s.selected_index = some i → i < s.pdf_files.length

/- ## A4 page geometry (src/core/pdf_handler.py, PDFMerger standardization) -/

/-- PDF points are modelled as rationals. -/
structure Rect where
  llx : ℚ
  lly : ℚ
  urx : ℚ
  ury : ℚ
deriving DecidableEq, Repr

def Rect.width (r : Rect) : ℚ := r.urx - r.llx

def Rect.height (r : Rect) : ℚ := r.ury - r.lly

/-- PDFConstants.A4_WIDTH. -/
def A4_WIDTH : ℚ := 595.276

/-- PDFConstants.A4_HEIGHT. -/
def A4_HEIGHT : ℚ := 841.890

/-- PDFConstants.SIZE_TOLERANCE. -/
def SIZE_TOLERANCE : ℚ := 1.0

/-- The exact A4 rectangle forced by _ensure_a4_mediabox. -/
def a4Rect : Rect := { llx := 0, lly := 0, urx := A4_WIDTH, ury := A4_HEIGHT }

/-- Page content is kept symbolic: the geometric operators applied to the
original content stream are recorded as constructors. -/
inductive PageContent
  | original (id : Nat)
  | blank
  | scaled (sx sy : ℚ) (c : PageContent)
  | translated (tx ty : ℚ) (c : PageContent)
  | merged (base overlay : PageContent)
deriving DecidableEq, Repr

/-- A PDF page: media box, the optional crop/trim/bleed boxes, and content. -/
structure Page where
  mediabox : Rect
  cropBox : Option Rect
  trimBox : Option Rect
  bleedBox : Option Rect
  content : PageContent
deriving DecidableEq, Repr

def scaleRect (sx sy : ℚ) (r : Rect) : Rect :=
  { llx := sx * r.llx, lly := sy * r.lly, urx := sx * r.urx, ury := sy * r.ury }

/-- PageObject.scale: scales the content and every box of the page. -/
def Page.scalePage (p : Page) (sx sy : ℚ) : Page :=
  { mediabox := scaleRect sx sy p.mediabox
    cropBox := p.cropBox.map (scaleRect sx sy)
    trimBox := p.trimBox.map (scaleRect sx sy)
    bleedBox := p.bleedBox.map (scaleRect sx sy)
    content := PageContent.scaled sx sy p.content }

/-- PageObject.create_blank_page: fresh page with only a media box. -/
def create_blank_page (width height : ℚ) : Page :=
  { mediabox := { llx := 0, lly := 0, urx := width, ury := height }
    cropBox := none
    trimBox := none
    bleedBox := none
    content := PageContent.blank }

/-- merge_translated_page: stamps the translated source content onto the
base page; the base page's boxes are not changed. -/
def merge_translated_page (base src : Page) (tx ty : ℚ) : Page :=
  { base with
    content := PageContent.merged base.content (PageContent.translated tx ty src.content) }

/-- PDFMerger._ensure_a4_mediabox: force the media box to exactly A4. -/
def ensure_a4_mediabox (p : Page) : Page :=
  { p with mediabox := a4Rect }

/-- PDFMerger._standardize_page_to_a4.  A zero page dimension raises
ZeroDivisionError when the scale factors are computed, which the source
catches and answers with the emergency fallback (_ensure_a4_mediabox on the
original page; the subsequent _try_basic_scaling is a no-op because the
dimensions then match A4 exactly).  Otherwise the page is scaled to fit,
centred onto a fresh blank A4 page, and the media box is forced to A4. -/
def standardize_page_to_a4 (page : Page) : Page :=
  let current_width := page.mediabox.width
  let current_height := page.mediabox.height
  if current_width = 0 ∨ current_height = 0 then
    ensure_a4_mediabox page
  else
    let scale_x := A4_WIDTH / current_width
    let scale_y := A4_HEIGHT / current_height
    let scale_factor := min scale_x scale_y
    let scaled := page.scalePage scale_factor scale_factor
    let x_offset := max 0 ((A4_WIDTH - current_width * scale_factor) / 2)
    let y_offset := max 0 ((A4_HEIGHT - current_height * scale_factor) / 2)
    let a4_page := create_blank_page A4_WIDTH A4_HEIGHT
    ensure_a4_mediabox (merge_translated_page a4_page scaled x_offset y_offset)

/-- PDFMerger._standardize_all_pages applied to one document. -/
def standardize_all_pages (pages : List Page) : List Page :=
  pages.map standardize_page_to_a4

/-- Pages of the merged output of a standardized merge: each input document
is standardized page by page and the results are concatenated in order. -/
def merged_output_pages (docs : List (List Page)) : List Page :=
  (docs.map standardize_all_pages).flatten

/- ## Merge engine result handling (src/core/pdf_handler.py, PDFMerger) -/

/-- Error kinds raised by merge_pdfs: the ValueError raised by
_validate_merge_inputs (before the try block) and the RuntimeError wrapping
any exception of the processing steps. -/
inductive MergeError
  | invalidInput (msg : String)
  | processingFailure (msg : String)
deriving DecidableEq, Repr

/-- The result record built by PDFMerger._build_merge_result. -/
structure MergeResult where
  success : Bool
  output_path : String
  original_size : Nat
  final_size : Nat
  compression_percent : ℚ
  total_pages : Nat
  files_merged : Nat
  standardized_to_a4 : Bool
deriving DecidableEq, Repr

/-- External effects of one merge run: whether some exception was raised
while merging, saving or compressing, and the byte size of the output file
observed after the compression pass. -/
structure MergeEnv where
  processError : Option String
  final_size : Nat
deriving DecidableEq, Repr

/-- PDFMerger.merge_pdfs.  Input validation happens before the try block, so
a too-short list raises the bare ValueError.  Inside the try block any
exception, including the ZeroDivisionError of the compression-ratio
division when the input sizes sum to zero, is wrapped into a RuntimeError. -/
def merge_pdfs (env : MergeEnv) (pdf_files : List PDFInfo) (output_path : String)
    (standardize_to_a4 : Bool) : Except MergeError MergeResult :=
  if pdf_files.length < 2 then
    Except.error (MergeError.invalidInput "Selecione pelo menos 2 arquivos PDF")
  else
    match env.processError with
    | some msg => Except.error (MergeError.processingFailure ("Erro ao processar PDFs: " ++ msg))
    | none =>
      let original_size := (pdf_files.map PDFInfo.size).sum
      if original_size = 0 then
        Except.error (MergeError.processingFailure "Erro ao processar PDFs: division by zero")
      else
        Except.ok
          { success := true
            output_path := output_path
            original_size := original_size
            final_size := env.final_size
            compression_percent :=
              ((original_size : ℚ) - (env.final_size : ℚ)) / (original_size : ℚ) * 100
            total_pages := (pdf_files.map PDFInfo.pages).sum
            files_merged := pdf_files.length
            standardized_to_a4 := standardize_to_a4 }

/-- The compression-ratio computation of PDFCompressor._execute_compression,
which, unlike the merge engine, guards the division with original_size > 0. -/
def compressor_compression_percent (original_size final_size : Nat) : ℚ :=
  if 0 < original_size then
    ((original_size : ℚ) - (final_size : ℚ)) / (original_size : ℚ) * 100
  else 0

/- ## Smart image optimizer (src/core/pdf_image_optimizer.py) -/

/-- A byte string is modelled by an identity tag plus its byte length; the
model never forges two different streams with the same tag. -/
structure ByteStream where
  tag : Nat
  size : Nat
deriving DecidableEq, Repr

/-- One embedded image of a page: raw bytes, decoded pixel dimensions and
the container format reported by extract_image. -/
structure EmbeddedImage where
  data : ByteStream
  width : Nat
  height : Nat
  ext : String
deriving DecidableEq, Repr

/-- Outcome of the external imaging library for one image: whether decoding
(Image.open and exif_transpose) succeeds, and the bytes produced by
_comprimir_balanceado (none when that step raises). -/
structure PILEnv where
  decodeOk : Bool
  encodeResult : Option ByteStream
deriving DecidableEq, Repr

/-- _redimensionar_balanceado on the decoded dimensions: resize only when a
dimension exceeds 2500, making the larger dimension 2500, truncating the
other proportionally and clamping both to at least 100. -/
def redimensionar_balanceado (w h : Nat) : Nat × Nat × Bool :=
  if 2500 < w ∨ 2500 < h then
    let nw := if h < w then 2500 else (2500 * w) / h
    let nh := if h < w then (2500 * h) / w else 2500
    (max nw 100, max nh 100, true)
  else (w, h, false)

/-- Result of processing one embedded image inside
_processar_pagina_balanceada: the bytes inserted into the output page,
whether the greater-than-1MiB re-encode branch was entered, and whether the
resized counter was incremented. -/
structure ImageOutcome where
  finalData : ByteStream
  attemptedReencode : Bool
  resizedCounted : Bool
deriving DecidableEq, Repr

/-- The per-image body of _processar_pagina_balanceada.  Only an image whose
raw byte length strictly exceeds 1024 * 1024 is decoded, optionally resized
when a dimension exceeds 3000, and re-encoded; the re-encoded bytes replace
the original only when strictly smaller than 90 percent of its byte length.
Any exception inside that branch keeps the original bytes. -/
def process_embedded_image (hasPIL : Bool) (env : PILEnv) (img : EmbeddedImage) :
    ImageOutcome :=
  let original_size := img.data.size
  if hasPIL ∧ 1024 * 1024 < original_size then
    if env.decodeOk then
      let resized :=
        if 3000 < img.width ∨ 3000 < img.height then
          (redimensionar_balanceado img.width img.height).2.2
        else false
      match env.encodeResult with
      | some comprimida =>
        if (comprimida.size : ℚ) < (original_size : ℚ) * 0.90 then
          { finalData := comprimida, attemptedReencode := true, resizedCounted := resized }
        else
          { finalData := img.data, attemptedReencode := true, resizedCounted := resized }
      | none =>
        { finalData := img.data, attemptedReencode := true, resizedCounted := resized }
    else
      { finalData := img.data, attemptedReencode := true, resizedCounted := false }
  else
    { finalData := img.data, attemptedReencode := false, resizedCounted := false }

/-- Error kinds raised by optimize_pdf_images before its try block: the
RuntimeError for a missing rendering library and the FileNotFoundError for
a missing input file. -/
inductive OptError
  | configurationMissing (msg : String)
  | notFound (msg : String)
deriving DecidableEq, Repr

/-- The statistics counters accumulated by the optimizer loop. -/
structure PipelineStats where
  images_processed : Nat
  pages_processed : Nat
  jpeg_images : Nat
  png_images : Nat
  resized_images : Nat
deriving DecidableEq, Repr

/-- The record returned by optimize_pdf_images. -/
structure OptimizeResult where
  success : Bool
  original_size : Nat
  final_size : Nat
  compression_percent : ℚ
  images_processed : Nat
  pages_processed : Nat
  jpeg_images : Nat
  png_images : Nat
  resized_images : Nat
  error_message : Option String
deriving DecidableEq, Repr

/-- External effects of one optimizer run: library availability, input file
existence, the input byte size, and the outcome of the page-processing and
save pipeline (either an exception message with the counters accumulated so
far, or the final counters with the output byte size). -/
structure OptimizeEnv where
  hasPymupdf : Bool
  inputExists : Bool
  original_size : Nat
  pipeline : Except (String × PipelineStats) (PipelineStats × Nat)

/-- optimize_pdf_images.  The two dependency checks raise before the try
block; every exception inside the pipeline, including the ZeroDivisionError
of the final ratio when the input size is zero, is caught at the top level
and converted into a failure record. -/
def optimize_pdf_images (env : OptimizeEnv) (input_path output_path quality : String) :
    Except OptError OptimizeResult :=
  if ¬ env.hasPymupdf then
    Except.error (OptError.configurationMissing
      "PyMuPDF (fitz) é obrigatório. Execute: pip install PyMuPDF")
  else if ¬ env.inputExists then
    Except.error (OptError.notFound ("Arquivo não encontrado: " ++ input_path))
  else
    match env.pipeline with
    | Except.error (msg, st) =>
      Except.ok
        { success := false
          original_size := env.original_size
          final_size := 0
          compression_percent := 0
          images_processed := st.images_processed
          pages_processed := st.pages_processed
          jpeg_images := st.jpeg_images
          png_images := st.png_images
          resized_images := st.resized_images
          error_message := some ("Erro durante otimização inteligente: " ++ msg) }
    | Except.ok (st, final_size) =>
      if env.original_size = 0 then
        Except.ok
          { success := false
            original_size := env.original_size
            final_size := 0
            compression_percent := 0
            images_processed := st.images_processed
            pages_processed := st.pages_processed
            jpeg_images := st.jpeg_images
            png_images := st.png_images
            resized_images := st.resized_images
            error_message := some "Erro durante otimização inteligente: division by zero" }
      else
        Except.ok
          { success := true
            original_size := env.original_size
            final_size := final_size
            compression_percent :=
              ((env.original_size : ℚ) - (final_size : ℚ)) / (env.original_size : ℚ) * 100
            images_processed := st.images_processed
            pages_processed := st.pages_processed
            jpeg_images := st.jpeg_images
            png_images := st.png_images
            resized_images := st.resized_images
            error_message := none }

/- ## Concrete instances used to exercise the theorems -/

def pdfA : PDFInfo := { path := "a.pdf", name := "a.pdf", size := 100, pages := 1 }

def pdfB : PDFInfo := { path := "b.pdf", name := "b.pdf", size := 200, pages := 2 }

def pdfC : PDFInfo := { path := "c.pdf", name := "c.pdf", size := 300, pages := 3 }

/-- A filesystem oracle recognising three sample files. -/
def sampleOracle : String → Option PDFInfo
  | "a.pdf" => some pdfA
  | "b.pdf" => some pdfB
  | "c.pdf" => some pdfC
  | _ => none

def c6Ops : List ManagerOp :=
  [ManagerOp.addFiles ["a.pdf", "b.pdf"], ManagerOp.setSelection (some 1)]

/-- The state of the specification's sort example: files b.pdf, a.pdf,
c.pdf, selection on index 1 (a.pdf), descending order about to toggle to
ascending. -/
def c8State : ManagerState :=
  { pdf_files := [pdfB, pdfA, pdfC], selected_index := some 1,
    sort_order := SortOrder.desc }

def letterPage : Page :=
  { mediabox := { llx := 0, lly := 0, urx := 612, ury := 792 }
    cropBox := some { llx := 0, lly := 0, urx := 612, ury := 792 }
    trimBox := none
    bleedBox := none
    content := PageContent.original 0 }

def smallPage : Page :=
  { mediabox := { llx := 0, lly := 0, urx := 400, ury := 600 }
    cropBox := none
    trimBox := none
    bleedBox := none
    content := PageContent.original 1 }

def c1Docs : List (List Page) := [[letterPage], [smallPage]]

def envOk : MergeEnv := { processError := none, final_size := 50 }

def mergeFiles2 : List PDFInfo := [pdfA, pdfB]

def mergeOkRecord : MergeResult :=
  { success := true
    output_path := "out.pdf"
    original_size := 300
    final_size := 50
    compression_percent := 250 / 3
    total_pages := 3
    files_merged := 2
    standardized_to_a4 := true }

def zeroA : PDFInfo := { path := "z1.pdf", name := "z1.pdf", size := 0, pages := 1 }

def zeroB : PDFInfo := { path := "z2.pdf", name := "z2.pdf", size := 0, pages := 1 }

def zeroFiles : List PDFInfo := [zeroA, zeroB]

def zeroEnv : MergeEnv := { processError := none, final_size := 0 }

def imgSmall : EmbeddedImage :=
  { data := { tag := 0, size := 1048576 }, width := 800, height := 600, ext := "jpg" }

def imgLarge : EmbeddedImage :=
  { data := { tag := 1, size := 1048577 }, width := 800, height := 600, ext := "jpg" }

def imgBig : EmbeddedImage :=
  { data := { tag := 2, size := 2000000 }, width := 1000, height := 1000, ext := "png" }

def encGood : ByteStream := { tag := 3, size := 1000000 }

def encBad : ByteStream := { tag := 4, size := 1900000 }

def pilEnvGood : PILEnv := { decodeOk := true, encodeResult := some encGood }

def pilEnvBad : PILEnv := { decodeOk := true, encodeResult := some encBad }

def failStats : PipelineStats :=
  { images_processed := 3, pages_processed := 2, jpeg_images := 1,
    png_images := 0, resized_images := 1 }

def optFailEnv : OptimizeEnv :=
  { hasPymupdf := true, inputExists := true, original_size := 5000,
    pipeline := Except.error ("boom", failStats) }

/- ## Helper lemmas about the embedded list operations -/

theorem length_insertAt (n : Nat) (x : α) (l : List α) :
    (insertAt n x l).length = l.length + 1 := by
  induction l generalizing n with
  | nil => cases n <;> rfl
  | cons y ys ih =>
    cases n with
    | zero => rfl
    | succ m => simp [insertAt, ih]

theorem length_insertSortedBy (lt : α → α → Bool) (x : α) (l : List α) :
    (insertSortedBy lt x l).length = l.length + 1 := by
  induction l with
  | nil => rfl
  | cons y ys ih =>
    unfold insertSortedBy
    split
    · rfl
    · simp [ih]

theorem length_stableSortBy_aux (lt : α → α → Bool) (l acc : List α) :
    (l.foldl (fun a x => insertSortedBy lt x a) acc).length = acc.length + l.length := by
  induction l generalizing acc with
  | nil => simp
  | cons y ys ih =>
    rw [List.foldl_cons, ih, length_insertSortedBy]
    simp only [List.length_cons]
    omega

theorem length_stableSortBy (lt : α → α → Bool) (l : List α) :
    (stableSortBy lt l).length = l.length := by
  unfold stableSortBy
  rw [length_stableSortBy_aux]
  simp

theorem length_apply_sort_order (order : SortOrder) (files : List PDFInfo) :
    (apply_sort_order order files).length = files.length := by
  cases order <;> simp [apply_sort_order, length_stableSortBy]

theorem find_file_index_by_path_lt_length (files : List PDFInfo) (p : String) (i : Nat)
    (h : find_file_index_by_path files p = some i) : i < files.length := by
  induction files generalizing i with
  | nil => simp [find_file_index_by_path] at h
  | cons f fs ih =>
    unfold find_file_index_by_path at h
    simp only [List.length_cons]
    split at h
    · cases h
      omega
    · cases hfind : find_file_index_by_path fs p with
      | none => rw [hfind] at h; simp at h
      | some j =>
        rw [hfind] at h
        simp at h
        have := ih j hfind
        omega

theorem set_selection_preserves_files (s : ManagerState) (index : Option Nat) :
    (set_selection s index).1.pdf_files = s.pdf_files := by
  unfold set_selection set_selection_internal
  cases index <;> dsimp only <;> (repeat' split) <;> rfl

/- ## Preservation of the selection bound by every manager operation -/

theorem sel_inbounds_set_selection (s : ManagerState) (index : Option Nat)
    (h : SelectionInBounds s) : SelectionInBounds (set_selection s index).1 := by
  unfold set_selection set_selection_internal
  cases index with
  | none =>
    dsimp only
    split
    · intro i hi
      exact absurd hi (by simp)
    · exact h
  | some i =>
    dsimp only
    split
    case isTrue hv =>
      split
      · intro j hj
        dsimp only at hj ⊢
        cases hj
        simpa [is_valid_index] using hv
      · exact h
    case isFalse hv => exact h

theorem sel_inbounds_add_file (g : String → Option PDFInfo) (s : ManagerState)
    (file_path : String) (h : SelectionInBounds s) :
    SelectionInBounds (add_file g s file_path).1 := by
  unfold add_file
  split
  · exact h
  · split
    · intro i hi
      dsimp only at hi ⊢
      have := h i hi
      simp
      omega
    · exact h

theorem sel_inbounds_additions_aux (g : String → Option PDFInfo) (file_paths : List String)
    (acc : ManagerState × Nat) (h : SelectionInBounds acc.1) :
    SelectionInBounds
      ((file_paths.foldl
        (fun acc file_path =>
          let r := add_file g acc.1 file_path
          (r.1, acc.2 + if r.2 then 1 else 0)) acc)).1 := by
  induction file_paths generalizing acc with
  | nil => simpa using h
  | cons p ps ih =>
    simp only [List.foldl_cons]
    exact ih _ (sel_inbounds_add_file g acc.1 p h)

theorem sel_inbounds_process_file_additions (g : String → Option PDFInfo)
    (s : ManagerState) (file_paths : List String) (h : SelectionInBounds s) :
    SelectionInBounds (process_file_additions g s file_paths).1 := by
  unfold process_file_additions
  exact sel_inbounds_additions_aux g file_paths (s, 0) h

theorem sel_inbounds_add_files (g : String → Option PDFInfo) (s : ManagerState)
    (file_paths : List String) (h : SelectionInBounds s) :
    SelectionInBounds (add_files g s file_paths).1 := by
  unfold add_files
  dsimp only
  split
  · split
    · exact sel_inbounds_set_selection _ _ (sel_inbounds_process_file_additions g s file_paths h)
    · exact sel_inbounds_process_file_additions g s file_paths h
  · exact sel_inbounds_process_file_additions g s file_paths h

theorem sel_inbounds_remove_file (s : ManagerState) (index : Nat)
    (h : SelectionInBounds s) : SelectionInBounds (remove_file s index).1 := by
  unfold remove_file
  split
  case isTrue hlen =>
    have hlen2 : (s.pdf_files.eraseIdx index).length = s.pdf_files.length - 1 := by
      rw [List.length_eraseIdx]
      simp [hlen]
    intro i hi
    dsimp only at hi ⊢
    rw [hlen2]
    split at hi
    · exact absurd hi (by simp)
    case isFalse hne =>
      cases hsel : s.selected_index with
      | none => rw [hsel] at hi; simp at hi
      | some j =>
        rw [hsel] at hi
        have hj := h j hsel
        have hji : j ≠ index := fun hc => hne (by rw [hsel, hc])
        dsimp only at hi
        split at hi
        case isTrue hlt =>
          cases hi
          omega
        case isFalse hge =>
          cases hi
          omega
  case isFalse => exact h

theorem sel_inbounds_move_file_up (s : ManagerState) (index : Nat)
    (h : SelectionInBounds s) : SelectionInBounds (move_file_up s index).1 := by
  unfold move_file_up
  split
  case isTrue hc =>
    intro i hi
    dsimp only at hi ⊢
    simp only [List.length_set]
    split at hi
    · cases hi
      omega
    · split at hi
      · cases hi
        exact hc.1
      · exact h i hi
  case isFalse => exact h

theorem sel_inbounds_move_file_down (s : ManagerState) (index : Nat)
    (h : SelectionInBounds s) : SelectionInBounds (move_file_down s index).1 := by
  unfold move_file_down
  split
  case isTrue hc =>
    intro i hi
    dsimp only at hi ⊢
    simp only [List.length_set]
    split at hi
    · cases hi
      omega
    · split at hi
      · cases hi
        omega
      · exact h i hi
  case isFalse => exact h

theorem sel_inbounds_move_file_to_position (s : ManagerState) (fromIdx toIdx : Nat)
    (h : SelectionInBounds s) : SelectionInBounds (move_file_to_position s fromIdx toIdx).1 := by
  unfold move_file_to_position
  split
  case isTrue hc =>
    split
    · exact h
    case isFalse hneq =>
      have hlen2 : (s.pdf_files.eraseIdx fromIdx).length = s.pdf_files.length - 1 := by
        rw [List.length_eraseIdx]
        simp [hc.1]
      intro i hi
      dsimp only at hi ⊢
      rw [length_insertAt, hlen2]
      split at hi
      · cases hi
        omega
      · have := h i hi
        omega
  case isFalse => exact h

theorem sel_inbounds_clear_all (s : ManagerState) :
    SelectionInBounds (clear_all s).1 := by
  unfold clear_all set_selection_internal
  dsimp only
  split
  · intro i hi
    exact absurd hi (by simp)
  case isFalse hne =>
    intro i hi
    dsimp only at hi
    rw [not_ne_iff.mp hne] at hi
    exact absurd hi (by simp)

theorem sel_inbounds_adjust_selection_after_sort (s : ManagerState)
    (h : SelectionInBounds s) : SelectionInBounds (adjust_selection_after_sort s).1 := by
  unfold adjust_selection_after_sort
  split
  · exact h
  case h_2 i heq =>
    split
    case isTrue hlt =>
      dsimp only
      split
      case h_1 new_index hfind =>
        intro j hj
        dsimp only at hj ⊢
        cases hj
        exact find_file_index_by_path_lt_length _ _ _ hfind
      case h_2 => exact h
    case isFalse => exact h

theorem sel_inbounds_toggle_sort_order (s : ManagerState)
    (h : SelectionInBounds s) : SelectionInBounds (toggle_sort_order s).1 := by
  unfold toggle_sort_order
  dsimp only
  apply sel_inbounds_adjust_selection_after_sort
  intro i hi
  dsimp only at hi ⊢
  rw [length_apply_sort_order]
  exact h i hi

theorem sel_inbounds_applyOp (g : String → Option PDFInfo) (s : ManagerState)
    (op : ManagerOp) (h : SelectionInBounds s) : SelectionInBounds (applyOp g s op) := by
  cases op with
  | addFiles paths => exact sel_inbounds_add_files g s paths h
  | removeFile i => exact sel_inbounds_remove_file s i h
  | moveFileUp i => exact sel_inbounds_move_file_up s i h
  | moveFileDown i => exact sel_inbounds_move_file_down s i h
  | moveFileToPosition a b => exact sel_inbounds_move_file_to_position s a b h
  | clearAll => exact sel_inbounds_clear_all s
  | toggleSortOrder => exact sel_inbounds_toggle_sort_order s h
  | setSelection idx => exact sel_inbounds_set_selection s idx h

/- ## Claim theorems -/

/-- Claim C6: for every sequence of file list manager operations (add single
or batch, remove by index, move up/down, move to position, clear all, toggle
sort order, set selection), the selected index, whenever present, is within
bounds of the file sequence after the operation completes. -/
theorem manager_selection_always_in_bounds (g : String → Option PDFInfo)
    (ops : List ManagerOp) :
    SelectionInBounds (applyOps g initialManagerState ops) := by
  unfold applyOps
  have h0 : SelectionInBounds initialManagerState := by
    intro i hi
    simp [initialManagerState] at hi
  suffices H : ∀ s, SelectionInBounds s → SelectionInBounds (ops.foldl (applyOp g) s) by
    exact H _ h0
  induction ops with
  | nil => intro s hs; simpa using hs
  | cons op rest ih =>
    intro s hs
    exact ih _ (sel_inbounds_applyOp g s op hs)

/-- Witness for C6: after adding two files and selecting index 1, the
selected index 1 is below the list length. -/
theorem manager_selection_always_in_bounds_witness :
    1 < (applyOps sampleOracle initialManagerState c6Ops).pdf_files.length :=
  manager_selection_always_in_bounds sampleOracle c6Ops 1 (by decide)

/-- Claim C7: adding a file whose path string is identical to one already in
the list is silently rejected (add_file returns false and the state is
unchanged), so adding the same path twice appends exactly one entry and the
batch add of a duplicated path reports an added-count of 1. -/
theorem duplicate_path_rejected (g : String → Option PDFInfo) (s : ManagerState)
    (file_path : String) (info : PDFInfo) :
    (file_already_exists s file_path = true → add_file g s file_path = (s, false)) ∧
    (file_already_exists s file_path = false → g file_path = some info →
      info.path = file_path →
      (add_files g s [file_path, file_path]).2.1 = 1 ∧
      (add_files g s [file_path, file_path]).1.pdf_files = s.pdf_files ++ [info]) := by
  constructor
  · intro hdup
    unfold add_file
    rw [if_pos hdup]
  · intro hnew hval hpath
    have hstep1 : add_file g s file_path =
        ({ s with pdf_files := s.pdf_files ++ [info] }, true) := by
      unfold add_file
      rw [if_neg (by simp [hnew]), hval]
    have hdup2 : file_already_exists { s with pdf_files := s.pdf_files ++ [info] } file_path = true := by
      unfold file_already_exists
      simp [hpath]
    have hstep2 : add_file g { s with pdf_files := s.pdf_files ++ [info] } file_path =
        ({ s with pdf_files := s.pdf_files ++ [info] }, false) := by
      unfold add_file
      rw [if_pos hdup2]
    have hproc : process_file_additions g s [file_path, file_path] =
        ({ s with pdf_files := s.pdf_files ++ [info] }, 1) := by
      unfold process_file_additions
      simp only [List.foldl_cons, List.foldl_nil, hstep1, hstep2]
      norm_num
    unfold add_files
    rw [hproc]
    dsimp only
    rw [if_pos (by norm_num)]
    by_cases hemp : s.pdf_files.isEmpty = true
    · rw [if_pos hemp]
      refine ⟨rfl, ?_⟩
      rw [set_selection_preserves_files]
    · rw [if_neg hemp]
      exact ⟨rfl, rfl⟩

/-- Witness for C7: adding a.pdf twice to the empty manager yields an
added-count of 1 and a single-entry list. -/
theorem duplicate_path_rejected_witness :
    (add_files sampleOracle initialManagerState ["a.pdf", "a.pdf"]).2.1 = 1 ∧
    (add_files sampleOracle initialManagerState ["a.pdf", "a.pdf"]).1.pdf_files = [pdfA] := by
  have h := (duplicate_path_rejected sampleOracle initialManagerState "a.pdf" pdfA).2
    (by decide) rfl rfl
  simpa [initialManagerState] using h

/-- Claim C8: evaluating toggle_sort_order at the specification's own
example (files b.pdf, a.pdf, c.pdf, selection on index 1 holding a.pdf,
descending order toggled to ascending).  The list is re-sorted to a.pdf,
b.pdf, c.pdf and the files-changed notification fires, but the selection
stays at numeric index 1 — now denoting b.pdf — instead of following a.pdf
to index 0, because the re-resolution reads the path at the stale index
from the already sorted list and is therefore an identity. -/
theorem toggle_sort_keeps_stale_index :
    ((toggle_sort_order c8State).1.pdf_files.map PDFInfo.name = ["a.pdf", "b.pdf", "c.pdf"]) ∧
    (toggle_sort_order c8State).1.sort_order = SortOrder.asc ∧
    (toggle_sort_order c8State).1.selected_index = some 1 ∧
    ¬ (toggle_sort_order c8State).1.selected_index = some 0 ∧
    Notification.filesChanged ∈ (toggle_sort_order c8State).2 := by
  decide

/-- Claim C9: theme toggling is an involution: toggling twice restores the
mode and get_colors returns the same mapping as before the two toggles;
each single toggle flips Light to Dark or Dark to Light and returns the new
mode. -/
theorem theme_toggle_involution (m : ThemeMode) :
    toggle_theme (toggle_theme m) = m ∧
    get_colors (toggle_theme (toggle_theme m)) = get_colors m ∧
    toggle_theme ThemeMode.light = ThemeMode.dark ∧
    toggle_theme ThemeMode.dark = ThemeMode.light := by
  cases m <;> exact ⟨rfl, rfl, rfl, rfl⟩

/-- Claim C1: every page processed by the A4 standardization step has its
media box (and, if present, its crop/trim/bleed boxes) forced to the exact
rectangle from (0, 0) to (595.276, 841.890) points, so every page of the
merged output reports a bounding box within 1.0 point of exactly
595.276 by 841.890. -/
theorem standardized_merge_forces_a4 (docs : List (List Page))
    (hpos : ∀ p ∈ docs.flatten, p.mediabox.width ≠ 0 ∧ p.mediabox.height ≠ 0) :
    ∀ q ∈ merged_output_pages docs,
      q.mediabox = a4Rect ∧
      (∀ r, q.cropBox = some r → r = a4Rect) ∧
      (∀ r, q.trimBox = some r → r = a4Rect) ∧
      (∀ r, q.bleedBox = some r → r = a4Rect) ∧
      |q.mediabox.width - A4_WIDTH| ≤ SIZE_TOLERANCE ∧
      |q.mediabox.height - A4_HEIGHT| ≤ SIZE_TOLERANCE := by
  intro q hq
  rcases List.mem_flatten.mp hq with ⟨pages, hpagesmem, hqin⟩
  rcases List.mem_map.mp hpagesmem with ⟨doc, hdocmem, hdoceq⟩
  subst hdoceq
  unfold standardize_all_pages at hqin
  rcases List.mem_map.mp hqin with ⟨p, hpmem, hpeq⟩
  subst hpeq
  obtain ⟨hw, hh⟩ := hpos p (List.mem_flatten.mpr ⟨doc, hdocmem, hpmem⟩)
  unfold standardize_page_to_a4
  rw [if_neg (by push_neg; exact ⟨hw, hh⟩)]
  dsimp only [ensure_a4_mediabox, merge_translated_page, create_blank_page]
  refine ⟨rfl, ?_, ?_, ?_, ?_, ?_⟩
  · intro r hr
    exact absurd hr (by simp)
  · intro r hr
    exact absurd hr (by simp)
  · intro r hr
    exact absurd hr (by simp)
  · simp only [a4Rect, Rect.width]
    norm_num [A4_WIDTH, SIZE_TOLERANCE]
  · simp only [a4Rect, Rect.height]
    norm_num [A4_HEIGHT, SIZE_TOLERANCE]

/-- Witness for C1 at a US Letter page with a crop box and a 400 by 600
page, both standardized inside a two-document merge. -/
theorem standardized_merge_forces_a4_witness :
    (standardize_page_to_a4 letterPage).mediabox = a4Rect ∧
    (∀ r, (standardize_page_to_a4 letterPage).cropBox = some r → r = a4Rect) ∧
    (∀ r, (standardize_page_to_a4 letterPage).trimBox = some r → r = a4Rect) ∧
    (∀ r, (standardize_page_to_a4 letterPage).bleedBox = some r → r = a4Rect) ∧
    |(standardize_page_to_a4 letterPage).mediabox.width - A4_WIDTH| ≤ SIZE_TOLERANCE ∧
    |(standardize_page_to_a4 letterPage).mediabox.height - A4_HEIGHT| ≤ SIZE_TOLERANCE := by
  have hpos : ∀ p ∈ c1Docs.flatten, p.mediabox.width ≠ 0 ∧ p.mediabox.height ≠ 0 := by
    intro p hp
    have hcases : p = letterPage ∨ p = smallPage := by
      simpa [c1Docs] using hp
    rcases hcases with rfl | rfl <;>
      exact ⟨by norm_num [letterPage, smallPage, Rect.width],
             by norm_num [letterPage, smallPage, Rect.height]⟩
  exact standardized_merge_forces_a4 c1Docs hpos (standardize_page_to_a4 letterPage)
    (by simp [merged_output_pages, standardize_all_pages, c1Docs])

/-- Claim C2: merging fewer than 2 files fails with the InvalidInput error
carrying the minimum-files message and produces no result; every merge that
completes successfully returns a record with success set and files_merged
equal to the number of input files. -/
theorem merge_min_files_and_count (env : MergeEnv) (pdf_files : List PDFInfo)
    (output_path : String) (standardize_to_a4 : Bool) :
    (pdf_files.length < 2 →
      merge_pdfs env pdf_files output_path standardize_to_a4 =
        Except.error (MergeError.invalidInput "Selecione pelo menos 2 arquivos PDF")) ∧
    (∀ r, merge_pdfs env pdf_files output_path standardize_to_a4 = Except.ok r →
      r.success = true ∧ r.files_merged = pdf_files.length) := by
  constructor
  · intro h
    unfold merge_pdfs
    rw [if_pos h]
  · intro r hr
    unfold merge_pdfs at hr
    split at hr
    · exact absurd hr (by simp)
    · split at hr
      · exact absurd hr (by simp)
      · dsimp only at hr
        split at hr
        · exact absurd hr (by simp)
        · cases hr
          exact ⟨rfl, rfl⟩

/-- Witness for C2: one file is rejected with the InvalidInput message; two
valid files produce a success record with files_merged equal to 2. -/
theorem merge_min_files_and_count_witness :
    merge_pdfs envOk [pdfA] "out.pdf" true =
      Except.error (MergeError.invalidInput "Selecione pelo menos 2 arquivos PDF") ∧
    mergeOkRecord.success = true ∧ mergeOkRecord.files_merged = 2 := by
  have heq : merge_pdfs envOk mergeFiles2 "out.pdf" true = Except.ok mergeOkRecord := by
    unfold merge_pdfs envOk mergeFiles2 mergeOkRecord pdfA pdfB
    norm_num
  refine ⟨(merge_min_files_and_count envOk [pdfA] "out.pdf" true).1 (by simp), ?_⟩
  exact (merge_min_files_and_count envOk mergeFiles2 "out.pdf" true).2 mergeOkRecord heq

/-- Claim C10: merge_pdfs computes the compression ratio with no guard
against a zero denominator, so an input list whose recorded sizes sum to
zero makes the division fault and surface as the wrapped processing failure
instead of a result, while the standalone compressor guards the same
computation with a positivity check and returns 0. -/
theorem merge_zero_size_division_fault (env : MergeEnv) (pdf_files : List PDFInfo)
    (output_path : String) (standardize_to_a4 : Bool)
    (h2 : 2 ≤ pdf_files.length) (hz : (pdf_files.map PDFInfo.size).sum = 0)
    (hp : env.processError = none) :
    merge_pdfs env pdf_files output_path standardize_to_a4 =
      Except.error (MergeError.processingFailure "Erro ao processar PDFs: division by zero") ∧
    ∀ final_size, compressor_compression_percent 0 final_size = 0 := by
  constructor
  · unfold merge_pdfs
    rw [if_neg (by omega), hp]
    dsimp only
    rw [if_pos hz]
  · intro fs
    unfold compressor_compression_percent
    rw [if_neg (by omega)]

/-- Witness for C10: two zero-byte inputs make the merge surface the wrapped
division fault, while the compressor's guarded ratio yields 0. -/
theorem merge_zero_size_division_fault_witness :
    merge_pdfs zeroEnv zeroFiles "out.pdf" true =
      Except.error (MergeError.processingFailure "Erro ao processar PDFs: division by zero") ∧
    compressor_compression_percent 0 1234 = 0 := by
  have h := merge_zero_size_division_fault zeroEnv zeroFiles "out.pdf" true
    (by decide) (by decide) rfl
  exact ⟨h.1, h.2 1234⟩

/-- Claim C3: in the smart image optimizer, re-encoding is attempted only
for an image whose raw byte length strictly exceeds 1048576 bytes; an image
of exactly 1048576 bytes or fewer is carried into the output completely
untouched, and an image of 1048577 bytes or more enters the resize and
re-encode path. -/
theorem optimizer_touch_threshold (env : PILEnv) (img : EmbeddedImage) :
    (img.data.size ≤ 1048576 →
      process_embedded_image true env img =
        { finalData := img.data, attemptedReencode := false, resizedCounted := false }) ∧
    (1048577 ≤ img.data.size →
      (process_embedded_image true env img).attemptedReencode = true) := by
  constructor
  · intro hle
    unfold process_embedded_image
    rw [if_neg (by simp; omega)]
  · intro hge
    unfold process_embedded_image
    rw [if_pos (by simp; omega)]
    dsimp only
    split
    · split
      · split <;> rfl
      · rfl
    · rfl

/-- Witness for C3 at an image of exactly 1048576 bytes (untouched) and one
of 1048577 bytes (re-encode branch entered). -/
theorem optimizer_touch_threshold_witness :
    process_embedded_image true pilEnvGood imgSmall =
      { finalData := imgSmall.data, attemptedReencode := false, resizedCounted := false } ∧
    (process_embedded_image true pilEnvGood imgLarge).attemptedReencode = true :=
  ⟨(optimizer_touch_threshold pilEnvGood imgSmall).1 (by decide),
   (optimizer_touch_threshold pilEnvGood imgLarge).2 (by decide)⟩

/-- Claim C4: for every image that is re-encoded, the re-encoded bytes are
used in the output only if their length is strictly less than 90 percent of
the original image's byte length; otherwise the original bytes are kept
unchanged in the output. -/
theorem optimizer_reencode_acceptance (env : PILEnv) (img : EmbeddedImage)
    (comprimida : ByteStream)
    (hbig : 1024 * 1024 < img.data.size)
    (hdec : env.decodeOk = true)
    (henc : env.encodeResult = some comprimida) :
    ((comprimida.size : ℚ) < (img.data.size : ℚ) * 0.90 →
      (process_embedded_image true env img).finalData = comprimida) ∧
    (¬ (comprimida.size : ℚ) < (img.data.size : ℚ) * 0.90 →
      (process_embedded_image true env img).finalData = img.data) := by
  unfold process_embedded_image
  rw [if_pos (by simp; omega), if_pos hdec, henc]
  dsimp only
  constructor
  · intro hlt
    rw [if_pos hlt]
  · intro hge
    rw [if_neg hge]

/-- Witness for C4: a 2000000-byte image with a 1000000-byte re-encode is
replaced, and with a 1900000-byte re-encode (95 percent) the original bytes
are retained. -/
theorem optimizer_reencode_acceptance_witness :
    (process_embedded_image true pilEnvGood imgBig).finalData = encGood ∧
    (process_embedded_image true pilEnvBad imgBig).finalData = imgBig.data := by
  constructor
  · exact (optimizer_reencode_acceptance pilEnvGood imgBig encGood (by decide) rfl rfl).1
      (by norm_num [encGood, imgBig])
  · exact (optimizer_reencode_acceptance pilEnvBad imgBig encBad (by decide) rfl rfl).2
      (by norm_num [encBad, imgBig])

/-- Claim C5: whenever the input path exists and the rendering library is
available, optimize_pdf_images never raises to its caller: any exception
during the pipeline is converted into a result record with success false,
the error message field populated, and zeroed final-size and ratio
fields. -/
theorem optimizer_never_raises (env : OptimizeEnv) (input_path output_path quality : String)
    (hm : env.hasPymupdf = true) (he : env.inputExists = true) :
    (∃ r, optimize_pdf_images env input_path output_path quality = Except.ok r) ∧
    (∀ msg st, env.pipeline = Except.error (msg, st) →
      optimize_pdf_images env input_path output_path quality = Except.ok
        { success := false
          original_size := env.original_size
          final_size := 0
          compression_percent := 0
          images_processed := st.images_processed
          pages_processed := st.pages_processed
          jpeg_images := st.jpeg_images
          png_images := st.png_images
          resized_images := st.resized_images
          error_message := some ("Erro durante otimização inteligente: " ++ msg) }) := by
  unfold optimize_pdf_images
  rw [hm, he]
  rw [if_neg (by simp), if_neg (by simp)]
  constructor
  · cases hp : env.pipeline with
    | error p =>
      cases p with
      | mk msg st => exact ⟨_, rfl⟩
    | ok p =>
      cases p with
      | mk st final_size =>
        dsimp only
        split <;> exact ⟨_, rfl⟩
  · intro msg st hp
    rw [hp]

/-- Witness for C5: a pipeline failure with message boom is converted into
an ok failure record with zeroed final size and ratio. -/
theorem optimizer_never_raises_witness :
    (∃ r, optimize_pdf_images optFailEnv "in.pdf" "out.pdf" "smart" = Except.ok r) ∧
    optimize_pdf_images optFailEnv "in.pdf" "out.pdf" "smart" = Except.ok
      { success := false
        original_size := 5000
        final_size := 0
        compression_percent := 0
        images_processed := 3
        pages_processed := 2
        jpeg_images := 1
        png_images := 0
        resized_images := 1
        error_message := some "Erro durante otimização inteligente: boom" } := by
  have h := optimizer_never_raises optFailEnv "in.pdf" "out.pdf" "smart" rfl rfl
  exact ⟨h.1, h.2 "boom" failStats rfl⟩
